import Mathlib

/-!
Shallow embedding of the OpenGL draw-batch assembler
(`Source/Core/VideoBackends/OGL/VertexManager.cpp`) of the Dolphin
emulator excerpt, together with proofs of the specification claims.

The embedding turns each member function into a pure Lean function from
an explicit state to a new state plus a trace of the observable calls it
makes into the graphics API and the collaborating components
(`StreamBuffer::Map`/`Unmap`, `IndexGenerator::Start`,
`ProgramShaderCache::SetShader`, `glColorMask`, `glEnable`/`glDisable`
of blending, the draw calls themselves, ...).  Pointers into the ring
buffers are modelled as byte offsets from the start of the buffer.

`StreamBuffer` and `IndexGenerator` live outside the excerpt; the small
parts of their behaviour that the claims need are modelled from the
specification and marked as such in their doc comments.
-/

namespace OGL

/-- Destination-alpha shader selector passed to
`ProgramShaderCache::SetShader` (DSTALPHA_NONE,
DSTALPHA_DUAL_SOURCE_BLEND, DSTALPHA_ALPHA_PASS). -/
inductive DSTALPHA_MODE where
  | NONE
  | DUAL_SOURCE_BLEND
  | ALPHA_PASS
deriving DecidableEq, Repr

/-- The emulated primitive kinds distinguished by the switch in
`VertexManager::Draw` (PRIMITIVE_POINTS / PRIMITIVE_LINES /
PRIMITIVE_TRIANGLES). -/
inductive PrimitiveType where
  | points
  | lines
  | triangles
deriving DecidableEq, Repr

/-- GL topology enums that `VertexManager::Draw` can select. -/
inductive GLPrimitive where
  | POINTS
  | LINES
  | TRIANGLES
  | TRIANGLE_STRIP
deriving DecidableEq, Repr

/-- One indexed draw submission
(`glDrawRangeElements[BaseVertex]`): topology, the `max_index` bound,
the number of indices, the byte offset of the index data inside the
index buffer, and, on the base-vertex path only, the base vertex. -/
structure DrawCall where
  mode : GLPrimitive
  maxIndex : Nat
  indexCount : Nat
  indexOffset : Nat
  baseVertex : Option Nat
deriving DecidableEq, Repr

/-- Observable calls emitted by the vertex manager, in program order. -/
inductive GLEvent where
  | bindVAO (vao : Nat)
  | mapVertex (size align : Nat)
  | mapIndex (size : Nat)
  | igStart (ptr : Nat)
  | unmapVertex (bytes : Nat)
  | unmapIndex (bytes : Nat)
  | setShader (mode : DSTALPHA_MODE) (components : Nat)
  | uploadConstants
  | setupVertexPointers
  | colorMask (r g b a : Bool)
  | setBlend (enabled : Bool)
  | restoreColorMask
  | drawCall (d : DrawCall)
deriving DecidableEq, Repr

/-- Platform capabilities read from `g_ActiveConfig.backend_info`. -/
structure BackendInfo where
  bSupportsDualSourceBlend : Bool
  bSupportsPrimitiveRestart : Bool
deriving DecidableEq, Repr

/-- Platform capabilities read from `g_ogl_config`. -/
structure OGLConfig where
  bSupportsGLBaseVertex : Bool
deriving DecidableEq, Repr

/-- The blend-mode bits of `bpmem.blendmode` consulted by `vFlush`. -/
structure BlendMode where
  blendenable : Bool
  subtract : Bool
deriving DecidableEq, Repr

/-- Modelled from the spec: the Ring Stream Buffer (`StreamBuffer`,
whose implementation is outside the excerpt).  `iterator` is the write
cursor; `mapping` holds the byte offset of the open mapping, when one
exists.  `Map` aligns the cursor to the requested stride and wraps to
offset 0 when the request would run past the end; `Unmap written`
commits exactly `written` bytes from the mapping's base offset and
advances the write cursor to just past them.  The GPU-consumption fence
is not needed by any claim and is omitted. -/
structure StreamBuffer where
  capacity : Nat
  iterator : Nat
  mapping : Option Nat
deriving DecidableEq, Repr

/-- Round `x` up to the next multiple of `a` (with `alignUp x 0 = x`). -/
def alignUp (x a : Nat) : Nat :=
  if a = 0 then x else ((x + a - 1) / a) * a

/-- Modelled from the spec: `StreamBuffer::Map maxSize alignStride`
reserves `maxSize` bytes at the aligned cursor, wrapping to offset 0
when the reservation would exceed the capacity; returns the new buffer
state and the mapping's byte offset. -/
def StreamBuffer.Map (sb : StreamBuffer) (maxSize alignStride : Nat) :
    StreamBuffer × Nat :=
  let off := alignUp sb.iterator alignStride
  let off := if sb.capacity < off + maxSize then 0 else off
  ({ sb with iterator := off, mapping := some off }, off)

/-- Modelled from the spec: `StreamBuffer::Unmap written` commits
exactly `written` bytes at the mapping's base offset and closes the
mapping. -/
def StreamBuffer.Unmap (sb : StreamBuffer) (written : Nat) : StreamBuffer :=
  match sb.mapping with
  | some off => { sb with iterator := off + written, mapping := none }
  | none => sb

/-- Sizes of the per-batch mappings requested by `ResetBuffer`
(`MAXVBUFFERSIZE` and `MAXIBUFFERSIZE` from the common
`VertexManager.h`, outside the excerpt; the claims only use that they
are fixed). -/
structure BatchLimits where
  MAXVBUFFERSIZE : Nat
  MAXIBUFFERSIZE : Nat
deriving DecidableEq, Repr

/-- State of the vertex manager: the two ring buffers, the recorded
`s_baseVertex` and `s_index_offset`, the `IndexGenerator` counters
(`GetNumVerts`, `GetIndexLen`) and the pointer it was started on,
the active primitive type, and the VAO-rebind cache `m_last_vao`. -/
structure VMState where
  vertexBuffer : StreamBuffer
  indexBuffer : StreamBuffer
  baseVertex : Nat
  indexOffset : Nat
  igNumVerts : Nat
  igIndexLen : Nat
  igPtr : Nat
  currentPrimitiveType : PrimitiveType
  lastVAO : Nat
deriving DecidableEq, Repr

/-- `VertexManager::PrepareDrawBuffers(stride)`: unmap both ring
buffers with exactly the byte counts actually produced
(`GetNumVerts() * stride` vertex bytes, `GetIndexLen() * sizeof(u16)`
index bytes). -/
def PrepareDrawBuffers (s : VMState) (stride : Nat) :
    VMState × List GLEvent :=
  let vertex_data_size := s.igNumVerts * stride
  let index_data_size := s.igIndexLen * 2
  ({ s with
      vertexBuffer := s.vertexBuffer.Unmap vertex_data_size
      indexBuffer := s.indexBuffer.Unmap index_data_size },
   [GLEvent.unmapVertex vertex_data_size, GLEvent.unmapIndex index_data_size])

/-- `VertexManager::ResetBuffer(stride)`: map both ring buffers at
their fixed maximum batch sizes, record `s_baseVertex` as the vertex
mapping's byte offset divided by the stride and `s_index_offset` as
the index mapping's byte offset, and start the index generator on the
index mapping's pointer (which resets its counters). -/
def ResetBuffer (lim : BatchLimits) (s : VMState) (stride : Nat) :
    VMState × List GLEvent :=
  let vres := s.vertexBuffer.Map lim.MAXVBUFFERSIZE stride
  let ires := s.indexBuffer.Map (lim.MAXIBUFFERSIZE * 2) 0
  ({ s with
      vertexBuffer := vres.1
      indexBuffer := ires.1
      baseVertex := vres.2 / stride
      igPtr := ires.2
      igNumVerts := 0
      igIndexLen := 0
      indexOffset := ires.2 },
   [GLEvent.mapVertex lim.MAXVBUFFERSIZE stride,
    GLEvent.mapIndex (lim.MAXIBUFFERSIZE * 2),
    GLEvent.igStart ires.2])

/-- The topology chosen by the switch in `VertexManager::Draw`. -/
def primitiveModeOf (binfo : BackendInfo) : PrimitiveType → GLPrimitive
  | PrimitiveType.points => GLPrimitive.POINTS
  | PrimitiveType.lines => GLPrimitive.LINES
  | PrimitiveType.triangles =>
      if binfo.bSupportsPrimitiveRestart then GLPrimitive.TRIANGLE_STRIP
      else GLPrimitive.TRIANGLES

/-- `VertexManager::Draw(stride)`: issue one indexed draw over the
committed range, through `glDrawRangeElementsBaseVertex` when the
platform supports base vertices and plain `glDrawRangeElements`
otherwise.  The `stride` parameter is carried as in the source, which
never reads it. -/
def Draw (binfo : BackendInfo) (ogl : OGLConfig) (s : VMState)
    (stride : Nat) : List GLEvent :=
  let index_size := s.igIndexLen
  let max_index := s.igNumVerts
  let primitive_mode := primitiveModeOf binfo s.currentPrimitiveType
  if ogl.bSupportsGLBaseVertex then
    [GLEvent.drawCall
      ⟨primitive_mode, max_index, index_size, s.indexOffset, some s.baseVertex⟩]
  else
    [GLEvent.drawCall
      ⟨primitive_mode, max_index, index_size, s.indexOffset, none⟩]

/-- Per-flush inputs read from globals: the native vertex format's
stride, VAO handle and component mask, and the current `bpmem`
blend-mode bits. -/
structure FlushInputs where
  stride : Nat
  vao : Nat
  components : Nat
  blendmode : BlendMode
deriving DecidableEq, Repr

/-- `VertexManager::vFlush(useDstAlpha)`: rebind the VAO if it changed,
unmap the buffers, select the shader variant (dual-source blend when
available and destination alpha is requested), upload the global
constants, set up the vertex pointers, draw, and, on the dual-pass
destination-alpha path, draw a second time with an alpha-only shader,
color channels masked off and blending disabled, then restore the
color mask and re-enable blending when the blend mode requires it.
The debug-only shader/target dump and the `iSaveTargetId` /
EFB-cache bookkeeping have no bearing on any claim and are omitted
from the trace. -/
def vFlush (binfo : BackendInfo) (ogl : OGLConfig) (inp : FlushInputs)
    (s : VMState) (useDstAlpha : Bool) : VMState × List GLEvent :=
  let stride := inp.stride
  let vaoEvents :=
    if s.lastVAO ≠ inp.vao then [GLEvent.bindVAO inp.vao] else []
  let s := if s.lastVAO ≠ inp.vao then { s with lastVAO := inp.vao } else s
  let prep := PrepareDrawBuffers s stride
  let s := prep.1
  let dualSourcePossible := binfo.bSupportsDualSourceBlend
  let shaderEvents :=
    if dualSourcePossible then
      if useDstAlpha then
        [GLEvent.setShader DSTALPHA_MODE.DUAL_SOURCE_BLEND inp.components]
      else
        [GLEvent.setShader DSTALPHA_MODE.NONE inp.components]
    else
      [GLEvent.setShader DSTALPHA_MODE.NONE inp.components]
  let firstDraw := Draw binfo ogl s stride
  let secondPass :=
    if useDstAlpha && !dualSourcePossible then
      [GLEvent.setShader DSTALPHA_MODE.ALPHA_PASS inp.components,
       GLEvent.colorMask false false false true,
       GLEvent.setBlend false]
      ++ Draw binfo ogl s stride
      ++ [GLEvent.restoreColorMask]
      ++ (if inp.blendmode.blendenable || inp.blendmode.subtract then
            [GLEvent.setBlend true]
          else [])
    else []
  (s,
   vaoEvents ++ prep.2 ++ shaderEvents
     ++ [GLEvent.uploadConstants, GLEvent.setupVertexPointers]
     ++ firstDraw ++ secondPass)

/-- The color write mask (red, green, blue, alpha). -/
structure ColorMask where
  r : Bool
  g : Bool
  b : Bool
  a : Bool
deriving DecidableEq, Repr

/-- The pieces of ambient GL state tracked by the interpreter. -/
structure GLState where
  mask : ColorMask
  blendEnabled : Bool
deriving DecidableEq, Repr

/-- The mask installed by `g_renderer->SetColorMask()`. -/
structure RenderEnv where
  rendererMask : ColorMask
deriving DecidableEq, Repr

/-- Effect of one event on the ambient GL state. -/
def stepGL (env : RenderEnv) (st : GLState) : GLEvent → GLState
  | GLEvent.colorMask r g b a => { st with mask := ⟨r, g, b, a⟩ }
  | GLEvent.setBlend b => { st with blendEnabled := b }
  | GLEvent.restoreColorMask => { st with mask := env.rendererMask }
  | _ => st

/-- Run a trace from an initial GL state; return the final state and,
for each draw call in order, the call together with the GL state in
effect while it executes. -/
def runGL (env : RenderEnv) (st : GLState) :
    List GLEvent → GLState × List (DrawCall × GLState)
  | [] => (st, [])
  | e :: rest =>
      let st1 := stepGL env st e
      let res := runGL env st1 rest
      match e with
      | GLEvent.drawCall d => (res.1, (d, st1) :: res.2)
      | _ => res

/-- The draw calls occurring in a trace, in order. -/
def drawCalls (evs : List GLEvent) : List DrawCall :=
  evs.filterMap fun e =>
    match e with
    | GLEvent.drawCall d => some d
    | _ => none

/-- The shader bindings occurring in a trace, in order. -/
def shaderBinds (evs : List GLEvent) : List (DSTALPHA_MODE × Nat) :=
  evs.filterMap fun e =>
    match e with
    | GLEvent.setShader m c => some (m, c)
    | _ => none

/-- How many times a trace uploads the global shader constants. -/
def constantUploads (evs : List GLEvent) : Nat :=
  (evs.filter fun e => e = GLEvent.uploadConstants).length

/-- GL index-resolution semantics of one indexed draw call: entry `i`
of the index stream selects vertex `base + stream[i]` on the
base-vertex path and vertex `stream[i]` otherwise. -/
def resolveDraw (stream : List Nat) (d : DrawCall) : List Nat :=
  match d.baseVertex with
  | some b => stream.map fun v => b + v
  | none => stream

/-- Modelled from the spec: on platforms without base-vertex support,
the index generator (outside the excerpt) pre-adds the batch's base
vertex to every index it writes, so the stored index stream is the
plain stream shifted by the base vertex. -/
def preAddedStream (base : Nat) (stream : List Nat) : List Nat :=
  stream.map fun v => base + v

/-- The geometry producer running between `ResetBuffer` and the flush:
it writes vertices and indices through the index generator, leaving
its counters at the given values. -/
def emitGeometry (s : VMState) (numVerts indexLen : Nat) : VMState :=
  { s with igNumVerts := numVerts, igIndexLen := indexLen }

/-- A concrete vertex-manager state used to instantiate theorems with
hypotheses on sample inputs. -/
def sampleVM : VMState :=
  { vertexBuffer := { capacity := 1024, iterator := 0, mapping := none }
    indexBuffer := { capacity := 512, iterator := 0, mapping := none }
    baseVertex := 0
    indexOffset := 0
    igNumVerts := 3
    igIndexLen := 3
    igPtr := 0
    currentPrimitiveType := PrimitiveType.triangles
    lastVAO := 0 }

/-- C3: for every stride and every index-generator state,
`PrepareDrawBuffers stride` unmaps the vertex ring buffer with exactly
`verticesEmitted * stride` bytes and the index ring buffer with
exactly `indicesEmitted * 2` bytes, and each buffer commits exactly
those byte counts past its mapping offset — never the full reserved
mapping capacity. -/
theorem prepareDrawBuffers_commits_exact_sizes (lim : BatchLimits)
    (s0 : VMState) (stride numVerts indexLen : Nat) :
    (PrepareDrawBuffers (emitGeometry (ResetBuffer lim s0 stride).1
        numVerts indexLen) stride).2 =
      [GLEvent.unmapVertex (numVerts * stride),
       GLEvent.unmapIndex (indexLen * 2)] ∧
    (PrepareDrawBuffers (emitGeometry (ResetBuffer lim s0 stride).1
        numVerts indexLen) stride).1.vertexBuffer.iterator =
      (ResetBuffer lim s0 stride).1.vertexBuffer.iterator + numVerts * stride ∧
    (PrepareDrawBuffers (emitGeometry (ResetBuffer lim s0 stride).1
        numVerts indexLen) stride).1.indexBuffer.iterator =
      (ResetBuffer lim s0 stride).1.indexBuffer.iterator + indexLen * 2 := by
  refine ⟨rfl, ?_, ?_⟩ <;>
    simp [PrepareDrawBuffers, emitGeometry, ResetBuffer,
      StreamBuffer.Map, StreamBuffer.Unmap]

/-- C7: if zero vertices and zero indices have been emitted since the
last `ResetBuffer`, then `PrepareDrawBuffers stride` commits zero
bytes to each ring buffer and leaves each buffer's write cursor
exactly where it was. -/
theorem prepareDrawBuffers_zero_emitted (lim : BatchLimits)
    (s0 : VMState) (stride : Nat) :
    (PrepareDrawBuffers (ResetBuffer lim s0 stride).1 stride).2 =
      [GLEvent.unmapVertex 0, GLEvent.unmapIndex 0] ∧
    (PrepareDrawBuffers (ResetBuffer lim s0 stride).1
        stride).1.vertexBuffer.iterator =
      (ResetBuffer lim s0 stride).1.vertexBuffer.iterator ∧
    (PrepareDrawBuffers (ResetBuffer lim s0 stride).1
        stride).1.indexBuffer.iterator =
      (ResetBuffer lim s0 stride).1.indexBuffer.iterator := by
  refine ⟨?_, ?_, ?_⟩ <;>
    simp [PrepareDrawBuffers, ResetBuffer,
      StreamBuffer.Map, StreamBuffer.Unmap]

/-- C6: for every positive stride, `ResetBuffer stride` opens a
mapping on both ring buffers sized to the fixed maximum batch
capacity, records the base vertex as the vertex mapping's byte offset
divided by the stride, records the index-buffer byte offset as the
index mapping's byte offset, and starts the index generator on the
index mapping's pointer. -/
theorem resetBuffer_spec (lim : BatchLimits) (s0 : VMState)
    (stride : Nat) (hpos : 0 < stride) :
    ∃ voff ioff,
      (ResetBuffer lim s0 stride).2 =
        [GLEvent.mapVertex lim.MAXVBUFFERSIZE stride,
         GLEvent.mapIndex (lim.MAXIBUFFERSIZE * 2),
         GLEvent.igStart ioff] ∧
      (ResetBuffer lim s0 stride).1.vertexBuffer.mapping = some voff ∧
      (ResetBuffer lim s0 stride).1.indexBuffer.mapping = some ioff ∧
      (ResetBuffer lim s0 stride).1.baseVertex = voff / stride ∧
      (ResetBuffer lim s0 stride).1.indexOffset = ioff ∧
      (ResetBuffer lim s0 stride).1.igPtr = ioff := by
  refine ⟨(s0.vertexBuffer.Map lim.MAXVBUFFERSIZE stride).2,
    (s0.indexBuffer.Map (lim.MAXIBUFFERSIZE * 2) 0).2, ?_⟩
  refine ⟨rfl, ?_, ?_, rfl, rfl, rfl⟩ <;>
    simp [ResetBuffer, StreamBuffer.Map]

/-- C6 witness: `resetBuffer_spec` at a concrete state and stride. -/
theorem resetBuffer_spec_witness :
    0 < 16 ∧
    (∃ voff ioff,
      (ResetBuffer ⟨1024, 256⟩ sampleVM 16).2 =
        [GLEvent.mapVertex (BatchLimits.mk 1024 256).MAXVBUFFERSIZE 16,
         GLEvent.mapIndex ((BatchLimits.mk 1024 256).MAXIBUFFERSIZE * 2),
         GLEvent.igStart ioff] ∧
      (ResetBuffer ⟨1024, 256⟩ sampleVM 16).1.vertexBuffer.mapping =
        some voff ∧
      (ResetBuffer ⟨1024, 256⟩ sampleVM 16).1.indexBuffer.mapping =
        some ioff ∧
      (ResetBuffer ⟨1024, 256⟩ sampleVM 16).1.baseVertex = voff / 16 ∧
      (ResetBuffer ⟨1024, 256⟩ sampleVM 16).1.indexOffset = ioff ∧
      (ResetBuffer ⟨1024, 256⟩ sampleVM 16).1.igPtr = ioff) :=
  ⟨by decide, resetBuffer_spec ⟨1024, 256⟩ sampleVM 16 (by decide)⟩

/-- C5: `Draw stride` issues exactly one indexed draw call over the
committed range, with topology POINTS for point primitives, LINES for
line primitives, and for triangle primitives TRIANGLE_STRIP when the
primitive-restart capability is active and TRIANGLES otherwise. -/
theorem draw_single_call_topology (binfo : BackendInfo)
    (ogl : OGLConfig) (s : VMState) (stride : Nat) :
    drawCalls (Draw binfo ogl s stride) =
      [{ mode :=
           match s.currentPrimitiveType with
           | PrimitiveType.points => GLPrimitive.POINTS
           | PrimitiveType.lines => GLPrimitive.LINES
           | PrimitiveType.triangles =>
               if binfo.bSupportsPrimitiveRestart then
                 GLPrimitive.TRIANGLE_STRIP
               else GLPrimitive.TRIANGLES
         maxIndex := s.igNumVerts
         indexCount := s.igIndexLen
         indexOffset := s.indexOffset
         baseVertex :=
           if ogl.bSupportsGLBaseVertex then some s.baseVertex else none }] := by
  cases hbv : ogl.bSupportsGLBaseVertex <;>
    cases hp : s.currentPrimitiveType <;>
      simp [Draw, drawCalls, primitiveModeOf, hbv, hp]

/-- C10: `Draw` is independent of its stride argument: with the same
surrounding state and capabilities, any two strides produce the
identical draw submission. -/
theorem draw_stride_independent (binfo : BackendInfo) (ogl : OGLConfig)
    (s : VMState) (stride1 stride2 : Nat) :
    Draw binfo ogl s stride1 = Draw binfo ogl s stride2 := rfl

/-- Concrete per-flush inputs for instantiating theorems. -/
def sampleInputs : FlushInputs :=
  { stride := 32, vao := 1, components := 7
    blendmode := { blendenable := true, subtract := false } }

/-- Concrete renderer environment for instantiating theorems. -/
def sampleEnv : RenderEnv :=
  { rendererMask := { r := true, g := true, b := true, a := true } }

/-- Concrete ambient GL state for instantiating theorems. -/
def sampleGL : GLState :=
  { mask := { r := true, g := true, b := true, a := true }
    blendEnabled := true }

/-- C1: with destination alpha requested and dual-source blending
unavailable, `vFlush` issues exactly two draw calls; the first runs
under the GL state in effect at entry, the second — and only the
second — with the color channels masked off and blending disabled;
on return, blending is enabled exactly when the blend mode has
blend-enable set or a subtract mode. -/
theorem flush_dual_pass (binfo : BackendInfo) (ogl : OGLConfig)
    (inp : FlushInputs) (s0 : VMState) (env : RenderEnv) (st0 : GLState)
    (hds : binfo.bSupportsDualSourceBlend = false) :
    (runGL env st0 (vFlush binfo ogl inp s0 true).2).2.map Prod.snd =
      [st0,
       { mask := { r := false, g := false, b := false, a := true }
         blendEnabled := false }] ∧
    (runGL env st0 (vFlush binfo ogl inp s0 true).2).1.blendEnabled =
      (inp.blendmode.blendenable || inp.blendmode.subtract) := by
  by_cases hvao : s0.lastVAO = inp.vao <;>
    cases hbv : ogl.bSupportsGLBaseVertex <;>
      cases hbl : inp.blendmode.blendenable || inp.blendmode.subtract <;>
        simp [vFlush, PrepareDrawBuffers, Draw, runGL, stepGL,
          hds, hvao, hbv, hbl]

/-- C1 witness: `flush_dual_pass` at a concrete configuration. -/
theorem flush_dual_pass_witness :
    (BackendInfo.mk false false).bSupportsDualSourceBlend = false ∧
    ((runGL sampleEnv sampleGL
        (vFlush ⟨false, false⟩ ⟨true⟩ sampleInputs sampleVM true).2).2.map
          Prod.snd =
      [sampleGL,
       { mask := { r := false, g := false, b := false, a := true }
         blendEnabled := false }] ∧
    (runGL sampleEnv sampleGL
        (vFlush ⟨false, false⟩ ⟨true⟩ sampleInputs sampleVM
          true).2).1.blendEnabled =
      (sampleInputs.blendmode.blendenable ||
        sampleInputs.blendmode.subtract)) :=
  ⟨by decide,
   flush_dual_pass ⟨false, false⟩ ⟨true⟩ sampleInputs sampleVM
     sampleEnv sampleGL (by decide)⟩

/-- C2 (amended): with dual-source blending available, `vFlush` issues
exactly one draw call and binds exactly one shader variant: the
combined regular+dst-alpha dual-source variant when destination alpha
is requested (`useDstAlpha` true), the plain non-alpha variant
otherwise (`useDstAlpha` false). -/
theorem flush_single_pass (binfo : BackendInfo) (ogl : OGLConfig)
    (inp : FlushInputs) (s0 : VMState) (useDstAlpha : Bool)
    (hds : binfo.bSupportsDualSourceBlend = true) :
    (drawCalls (vFlush binfo ogl inp s0 useDstAlpha).2).length = 1 ∧
    shaderBinds (vFlush binfo ogl inp s0 useDstAlpha).2 =
      [(if useDstAlpha then DSTALPHA_MODE.DUAL_SOURCE_BLEND
        else DSTALPHA_MODE.NONE, inp.components)] := by
  by_cases hvao : s0.lastVAO = inp.vao <;>
    cases hbv : ogl.bSupportsGLBaseVertex <;>
      cases useDstAlpha <;>
        simp [vFlush, PrepareDrawBuffers, Draw, drawCalls, shaderBinds,
          hds, hvao, hbv]

/-- C2 counterexample: the claim as stated pairs the variants the
other way around (non-alpha variant for `useDstAlpha` true); at a
concrete dual-source-capable configuration with `useDstAlpha` true,
the shader bound is the dual-source variant, not the non-alpha one,
so the stated pairing fails. -/
theorem flush_single_pass_counterexample :
    ¬((drawCalls (vFlush ⟨true, false⟩ ⟨true⟩ sampleInputs sampleVM
          true).2).length = 1 ∧
      shaderBinds (vFlush ⟨true, false⟩ ⟨true⟩ sampleInputs sampleVM
          true).2 =
        [(DSTALPHA_MODE.NONE, sampleInputs.components)]) := by
  decide

/-- C2 witness: `flush_single_pass` at a concrete configuration. -/
theorem flush_single_pass_witness :
    (BackendInfo.mk true false).bSupportsDualSourceBlend = true ∧
    ((drawCalls (vFlush ⟨true, false⟩ ⟨true⟩ sampleInputs sampleVM
        true).2).length = 1 ∧
    shaderBinds (vFlush ⟨true, false⟩ ⟨true⟩ sampleInputs sampleVM
        true).2 =
      [(if true then DSTALPHA_MODE.DUAL_SOURCE_BLEND
        else DSTALPHA_MODE.NONE, sampleInputs.components)]) :=
  ⟨by decide,
   flush_single_pass ⟨true, false⟩ ⟨true⟩ sampleInputs sampleVM true
     (by decide)⟩

/-- C8: every `vFlush` uploads the global shader constants exactly
once, whether it executes one draw pass or two. -/
theorem flush_uploads_constants_once (binfo : BackendInfo)
    (ogl : OGLConfig) (inp : FlushInputs) (s0 : VMState)
    (useDstAlpha : Bool) :
    constantUploads (vFlush binfo ogl inp s0 useDstAlpha).2 = 1 := by
  by_cases hvao : s0.lastVAO = inp.vao <;>
    cases hds : binfo.bSupportsDualSourceBlend <;>
      cases hbv : ogl.bSupportsGLBaseVertex <;>
        cases useDstAlpha <;>
          cases hbl : inp.blendmode.blendenable || inp.blendmode.subtract <;>
            simp [vFlush, PrepareDrawBuffers, Draw, constantUploads,
              hvao, hds, hbv, hbl]

/-- C9: on the dual-pass destination-alpha path, the color write mask
in effect when `vFlush` returns is the renderer's configured mask —
the alpha-only mask of the second pass never survives the flush. -/
theorem flush_restores_color_mask (binfo : BackendInfo)
    (ogl : OGLConfig) (inp : FlushInputs) (s0 : VMState)
    (env : RenderEnv) (st0 : GLState)
    (hds : binfo.bSupportsDualSourceBlend = false) :
    (runGL env st0 (vFlush binfo ogl inp s0 true).2).1.mask =
      env.rendererMask := by
  by_cases hvao : s0.lastVAO = inp.vao <;>
    cases hbv : ogl.bSupportsGLBaseVertex <;>
      cases hbl : inp.blendmode.blendenable || inp.blendmode.subtract <;>
        simp [vFlush, PrepareDrawBuffers, Draw, runGL, stepGL,
          hds, hvao, hbv, hbl]

/-- C9 witness: `flush_restores_color_mask` at a concrete
configuration. -/
theorem flush_restores_color_mask_witness :
    (BackendInfo.mk false false).bSupportsDualSourceBlend = false ∧
    (runGL sampleEnv sampleGL
        (vFlush ⟨false, false⟩ ⟨true⟩ sampleInputs sampleVM true).2).1.mask =
      sampleEnv.rendererMask :=
  ⟨by decide,
   flush_restores_color_mask ⟨false, false⟩ ⟨true⟩ sampleInputs
     sampleVM sampleEnv sampleGL (by decide)⟩

/-- C4: for the same batch, the draw submitted on the
base-vertex-offset path and the draw submitted on the fallback path
(whose index stream, per the spec, carries the base vertex pre-added
to every index) resolve every index entry to the same vertex. -/
theorem base_vertex_paths_equivalent (binfo : BackendInfo)
    (oglT oglF : OGLConfig) (s : VMState) (stride : Nat)
    (stream : List Nat)
    (hT : oglT.bSupportsGLBaseVertex = true)
    (hF : oglF.bSupportsGLBaseVertex = false) :
    (drawCalls (Draw binfo oglT s stride)).map (resolveDraw stream) =
      (drawCalls (Draw binfo oglF s stride)).map
        (resolveDraw (preAddedStream s.baseVertex stream)) := by
  simp [Draw, drawCalls, resolveDraw, preAddedStream, hT, hF]

/-- C4 witness: `base_vertex_paths_equivalent` at a concrete batch. -/
theorem base_vertex_paths_equivalent_witness :
    (OGLConfig.mk true).bSupportsGLBaseVertex = true ∧
    (OGLConfig.mk false).bSupportsGLBaseVertex = false ∧
    (drawCalls (Draw ⟨false, false⟩ ⟨true⟩ sampleVM 32)).map
        (resolveDraw [0, 1, 2]) =
      (drawCalls (Draw ⟨false, false⟩ ⟨false⟩ sampleVM 32)).map
        (resolveDraw (preAddedStream sampleVM.baseVertex [0, 1, 2])) :=
  ⟨by decide, by decide,
   base_vertex_paths_equivalent ⟨false, false⟩ ⟨true⟩ ⟨false⟩ sampleVM
     32 [0, 1, 2] (by decide) (by decide)⟩

end OGL
